import Mathlib

/-!
Verification of the PDF folder merger (pdf_folder_merger_tk.py).

The embedding models the core pipeline: TOC layout (`_build_toc_pdf_bytes`),
pagination resolution and the merge orchestrator (`merge_pdfs_with_toc`),
overlay stamping (`_overlay_header_footer_pdf_bytes`,
`_stamp_header_footer_on_writer`), folder listing (`_list_pdfs_in_folder`)
and page counting (`_count_pages`).

Modelling conventions:
- All page geometry values in the source are exact small integers (points),
  so coordinates are modelled with `Int`; the Python float floor division
  `//` on integer-valued floats is `Int.fdiv`.
- The reportlab canvas is modelled as the list of drawing operations issued
  on it; the serialized bytes of a page are identified with its operation
  list (the canvas serializer is a fixed external function of the drawing
  commands).
- A pypdf page is modelled as its geometry, its content, the list of overlay
  layers merged onto it, and a flag `mergeOk` saying whether
  `page.merge_page` succeeds on it (the source wraps that call in a
  `try/except` that swallows any failure, e.g. on degenerate geometry).
- File system reads are modelled by giving each directory entry its read
  outcome up front: `Except errorMessage pages`.
- Progress callbacks, log callbacks and the final file write are modelled as
  an ordered event trace.
-/

/-- Lowercasing of a Python string (`str.lower`), on code points. -/
def strToLower (s : String) : String := String.mk (s.data.map Char.toLower)

/-- Python `str.endswith`, on code points. -/
def strEndsWith (s suf : String) : Bool := suf.data.isSuffixOf s.data

/-- Lexicographic comparison of code point lists, as Python string `<=`. -/
def charListLe : List Char → List Char → Bool
  | [], _ => true
  | _ :: _, [] => false
  | a :: as, b :: bs => if a < b then true else if b < a then false else charListLe as bs

/-- Comparison key used by the folder listing sort: lowercased name order. -/
def strLeKey (a b : String) : Bool := charListLe (strToLower a).data (strToLower b).data

/-- Python `str.strip` (whitespace from both ends). -/
def strTrim (s : String) : String :=
  String.mk (((s.data.dropWhile Char.isWhitespace).reverse.dropWhile Char.isWhitespace).reverse)

/-- Python slicing `s[:n]`, on code points. -/
def strTake (s : String) (n : ℕ) : String := String.mk (s.data.take n)

/-- The TOC page geometry parameters of `_build_toc_pdf_bytes`
(`pagesize`, margins, font name, body font size, line gap). -/
structure TocGeometry where
  pageW : ℤ
  pageH : ℤ
  leftMargin : ℤ
  topMargin : ℤ
  bottomMargin : ℤ
  fontName : String
  fontSize : ℤ
  lineGap : ℤ
deriving DecidableEq

/-- The default geometry of `_build_toc_pdf_bytes`: letter size page,
54 point margins, Helvetica 11 with a 3 point line gap. Both resolver
passes call the layout with these defaults. -/
def defaultGeometry : TocGeometry :=
  { pageW := 612, pageH := 792, leftMargin := 54, topMargin := 54, bottomMargin := 54,
    fontName := "Helvetica", fontSize := 11, lineGap := 3 }

/-- Source: `usable_h = h - top_margin - bottom_margin`. -/
def usableH (g : TocGeometry) : ℤ := g.pageH - g.topMargin - g.bottomMargin

/-- Source: `line_h = font_size + line_gap`. -/
def lineH (g : TocGeometry) : ℤ := g.fontSize + g.lineGap

/-- Source: `header_space = title_gap + 2 * line_h` with `title_gap = 18`. -/
def headerSpace (g : TocGeometry) : ℤ := 18 + 2 * lineH g

/-- Source: `lines_per_page = max(1, int((usable_h - header_space) // line_h))`.
This is the TOC capacity: a function of the geometry only. -/
def linesPerPage (g : TocGeometry) : ℕ :=
  max 1 (Int.toNat (Int.fdiv (usableH g - headerSpace g) (lineH g)))

/-- A reportlab canvas drawing command issued by the source. -/
inductive DrawOp where
  | setFont (font : String) (size : ℤ)
  | drawString (x y : ℤ) (text : String)
  | drawRightString (x y : ℤ) (text : String)
  | showPage
deriving DecidableEq

/-- Source: `"." * 60`, the dotted leader of a TOC line. -/
def dotsString : String := String.mk (List.replicate 60 '.')

/-- Source: `disp = name if len(name) <= max_chars else (name[: max_chars - 3] + "...")`
with `max_chars = 95`. -/
def truncatedLabel (name : String) : String :=
  if name.length ≤ 95 then name else strTake name 92 ++ "..."

/-- The entry loop of `draw_page`: one line per entry, each one line height
lower than the previous one (label, dotted leader, right-aligned number). -/
def entryLines (g : TocGeometry) : ℤ → List (String × ℕ) → List DrawOp
  | _, [] => []
  | y, (name, pg) :: rest =>
    let dotsStartX := g.leftMargin + 320
    let dotsEndX := g.pageW - g.leftMargin - 40
    ([DrawOp.drawString g.leftMargin y (truncatedLabel name)]
      ++ (if dotsStartX < dotsEndX then [DrawOp.drawString dotsStartX y dotsString] else [])
      ++ [DrawOp.drawRightString (g.pageW - g.leftMargin) y (toString pg)])
      ++ entryLines g (y - lineH g) rest

/-- Source: `draw_page(page_idx)` inside `_build_toc_pdf_bytes`: title, the
subtitle line, then the slice `entries[page_idx*lpp : page_idx*lpp+lpp]`. -/
def draw_page (g : TocGeometry) (title : String) (entries : List (String × ℕ))
    (lpp : ℕ) (pageIdx : ℕ) : List DrawOp :=
  let y0 := g.pageH - g.topMargin - 18
  [DrawOp.setFont g.fontName 16,
   DrawOp.drawString g.leftMargin (g.pageH - g.topMargin) title,
   DrawOp.setFont g.fontName 9,
   DrawOp.drawString g.leftMargin y0 "Merged PDF contents (file start pages):",
   DrawOp.setFont g.fontName g.fontSize]
  ++ entryLines g (y0 - (lineH g + 6)) ((entries.drop (pageIdx * lpp)).take lpp)
  ++ [DrawOp.showPage]

/-- Source: `_build_toc_pdf_bytes(entries, title, ...)`. Returns the rendered
pages (one operation list per TOC page) and the TOC page count
`max(1, (len(entries) + lines_per_page - 1) // lines_per_page)`. -/
def build_toc_pdf (g : TocGeometry) (title : String) (entries : List (String × ℕ)) :
    List (List DrawOp) × ℕ :=
  let lpp := linesPerPage g
  let tocPages := max 1 ((entries.length + (lpp - 1)) / lpp)
  ((List.range tocPages).map (draw_page g title entries lpp), tocPages)

/-- Default `title` argument of `_build_toc_pdf_bytes`. -/
def tocTitle : String := "Table of Contents"

/-- The start page accumulation loop of `merge_pdfs_with_toc`:
`starts.append(current); current += n`. -/
def computeStartsFrom (current : ℕ) : List ℕ → List ℕ
  | [] => []
  | n :: rest => current :: computeStartsFrom (current + n) rest

/-- Start pages computed from a TOC page count: `current = toc_pages + 1`
followed by the accumulation loop. -/
def computeStarts (tocPages : ℕ) (pageCounts : List ℕ) : List ℕ :=
  computeStartsFrom (tocPages + 1) pageCounts

/-- Output of the pagination resolution part of `merge_pdfs_with_toc`:
the final rendered TOC pages, the final TOC entries, the final start pages
and the final TOC page count. -/
structure ResolveOut where
  tocRendered : List (List DrawOp)
  entries : List (String × ℕ)
  starts : List ℕ
  tocPages : ℕ
deriving DecidableEq

/-- The pagination resolution of `merge_pdfs_with_toc` (source lines
204-223): placeholder layout pass, start page computation, verification
layout pass with the real entries, and a single recomputation plus
re-render when the verified TOC page count differs. -/
def resolvePagination (names : List String) (pageCounts : List ℕ) : ResolveOut :=
  let placeholder := names.map (fun f => (f, 1))
  let r0 := build_toc_pdf defaultGeometry tocTitle placeholder
  let starts := computeStarts r0.2 pageCounts
  let entries := names.zip starts
  let r1 := build_toc_pdf defaultGeometry tocTitle entries
  if r1.2 ≠ r0.2 then
    let starts2 := computeStarts r1.2 pageCounts
    let entries2 := names.zip starts2
    let r2 := build_toc_pdf defaultGeometry tocTitle entries2
    ⟨r2.1, entries2, starts2, r2.2⟩
  else
    ⟨r1.1, entries, starts, r1.2⟩

/-- Error type of the bounded fixed point resolver described by the spec. -/
inductive ResolveError where
  | paginationDidNotConverge
deriving DecidableEq

/-- Follows the wording of the spec (section 4.3), for comparison with the
source resolver: from a provisional TOC page count, repeatedly compute start
pages, re-run the layout with the real entries, stop when the page count is
stable, and fail with `PaginationDidNotConverge` when the bound is exceeded. -/
def specLoopSteps (names : List String) (pageCounts : List ℕ) :
    ℕ → ℕ → Except ResolveError (List (String × ℕ) × List ℕ × ℕ)
  | 0, _ => Except.error ResolveError.paginationDidNotConverge
  | fuel + 1, t =>
    let starts := computeStarts t pageCounts
    let entries := names.zip starts
    let t2 := (build_toc_pdf defaultGeometry tocTitle entries).2
    if t2 = t then Except.ok (entries, starts, t)
    else specLoopSteps names pageCounts fuel t2

/-- Follows the wording of the spec (section 4.3): placeholder pass to get a
provisional TOC page count, then the bounded (5 iteration) fixed point loop. -/
def resolveSpecLoop (names : List String) (pageCounts : List ℕ) :
    Except ResolveError (List (String × ℕ) × List ℕ × ℕ) :=
  specLoopSteps names pageCounts 5
    (build_toc_pdf defaultGeometry tocTitle (names.map (fun f => (f, 1)))).2

/-- Content of a writer page: either a page taken from a source document or
a page rendered by the TOC canvas. -/
inductive PageContent where
  | fromSource (file : String) (index : ℕ)
  | rendered (ops : List DrawOp)
deriving DecidableEq

/-- A pypdf page in the writer: media box geometry, content, the overlay
layers merged onto it so far, and whether `page.merge_page` succeeds on it
(the source swallows any `merge_page` failure). -/
structure Page where
  width : ℤ
  height : ℤ
  content : PageContent
  overlays : List (List DrawOp)
  mergeOk : Bool
deriving DecidableEq

/-- Source: `_overlay_header_footer_pdf_bytes`: the drawing commands of one
header/footer overlay, sized to the given page. Margins 36/24/24, header
font 10, footer font 9; the header is drawn only when the stripped header
text is non-empty; the footer reads `Page {i} of {total}`. -/
def overlay_header_footer (pageW pageH : ℤ) (headerText : String)
    (pageNum1 totalPages : ℕ) : List DrawOp :=
  (if strTrim headerText ≠ "" then
    [DrawOp.setFont "Helvetica" 10, DrawOp.drawString 36 (pageH - 24) (strTrim headerText)]
  else [])
  ++ [DrawOp.setFont "Helvetica" 9,
      DrawOp.drawRightString (pageW - 36) 24
        ("Page " ++ toString pageNum1 ++ " of " ++ toString totalPages)]

/-- One iteration of the stamping loop: build the overlay for this page from
its own width and height and merge it in; a failing `merge_page` is silently
skipped (`except Exception: pass`), leaving the page unchanged. -/
def stamp_one (headerText : String) (totalPages idx : ℕ) (p : Page) : Page :=
  let ov := overlay_header_footer p.width p.height headerText (idx + 1) totalPages
  if p.mergeOk then { p with overlays := p.overlays ++ [ov] } else p

/-- The stamping loop over the writer pages, carrying the running 0-based
index. -/
def stamp_from (headerText : String) (totalPages : ℕ) : ℕ → List Page → List Page
  | _, [] => []
  | idx, p :: rest =>
    stamp_one headerText totalPages idx p :: stamp_from headerText totalPages (idx + 1) rest

/-- Source: `_stamp_header_footer_on_writer(writer, header_text)`: stamps
every writer page, with `total = len(writer.pages)` read before the loop. -/
def stamp_header_footer_on_writer (headerText : String) (pages : List Page) : List Page :=
  stamp_from headerText pages.length 0 pages

/-- Decidable equality of read outcomes, needed to evaluate concrete runs. -/
instance exceptDecEq {ε α : Type} [DecidableEq ε] [DecidableEq α] : DecidableEq (Except ε α)
  | Except.error a, Except.error b =>
    if h : a = b then isTrue (by rw [h]) else isFalse (by simp [h])
  | Except.error _, Except.ok _ => isFalse (by simp)
  | Except.ok _, Except.error _ => isFalse (by simp)
  | Except.ok a, Except.ok b =>
    if h : a = b then isTrue (by rw [h]) else isFalse (by simp [h])

/-- A directory entry: its file name and the outcome of reading it as a PDF
(an error message, or its pages). Reads are deterministic within one run. -/
structure SrcFile where
  name : String
  read : Except String (List Page)
deriving DecidableEq

/-- Errors raised by `merge_pdfs_with_toc`: the `ValueError` for an empty
folder, the `RuntimeError` wrapping a failed page count, and an otherwise
uncaught exception propagating out of the merge. -/
inductive MergeError where
  | noPdfFiles
  | failedToRead (path : String) (msg : String)
  | uncaught (msg : String)
deriving DecidableEq

/-- The message of each raised error, as formatted by the source. -/
def errMessage : MergeError → String
  | MergeError.noPdfFiles => "No PDF files found in the selected folder."
  | MergeError.failedToRead path msg => "Failed to read PDF: " ++ path ++ "\n" ++ msg
  | MergeError.uncaught msg => msg

/-- Observable side effects of one merge run: progress callbacks, log
callbacks, and the final write of the output document. -/
inductive Event where
  | progress (index total : ℕ) (message : String)
  | log (line : String)
  | writeOutput (pages : List Page)
deriving DecidableEq

/-- Recognizes the output write among the events of a run. -/
def Event.isWrite : Event → Bool
  | Event.writeOutput _ => true
  | _ => false

/-- Source: `_is_pdf(path)`: `path.lower().endswith(".pdf")`. -/
def is_pdf (p : String) : Bool := strEndsWith (strToLower p) ".pdf"

/-- Source: `_list_pdfs_in_folder`: keep the entries whose name ends in
`.pdf` (case-insensitively) and sort them by lowercased name. -/
def list_pdfs_in_folder (dirEntries : List SrcFile) : List SrcFile :=
  (dirEntries.filter (fun f => is_pdf f.name)).insertionSort
    (fun a b => strLeKey a.name b.name = true)

/-- Source: `_count_pages(pdf_path)`: `len(PdfReader(pdf_path).pages)`. -/
def count_pages_of (f : SrcFile) : Except String ℕ := f.read.map List.length

/-- The page counting loop of `merge_pdfs_with_toc`: one progress event per
file; the first unreadable file aborts the run with a `RuntimeError` naming
it. -/
def count_phase (total : ℕ) : ℕ → List SrcFile → List Event × Except MergeError (List ℕ)
  | _, [] => ([], Except.ok [])
  | i, f :: rest =>
    let ev := Event.progress i total ("Counting pages: " ++ f.name)
    match count_pages_of f with
    | Except.error e => ([ev], Except.error (MergeError.failedToRead f.name e))
    | Except.ok n =>
      let r := count_phase total (i + 1) rest
      (ev :: r.1, r.2.map (fun l => n :: l))

/-- The assembly loop of `merge_pdfs_with_toc`: one progress event per file,
the pages of each file appended in order, and one outline (bookmark) entry
per file at `starts[i-1] - 1` (0-based). A read failure here would propagate
as an uncaught exception; it cannot occur after a successful counting phase
because reads are deterministic. -/
def assemble_phase (total : ℕ) :
    ℕ → List SrcFile → List ℕ → List Event × Except MergeError (List Page × List (String × ℕ))
  | _, [], _ => ([], Except.ok ([], []))
  | i, f :: rest, starts =>
    let ev := Event.progress i total ("Merging: " ++ f.name)
    match f.read, starts with
    | Except.error e, _ => ([ev], Except.error (MergeError.uncaught e))
    | Except.ok _, [] => ([ev], Except.error (MergeError.uncaught "list index out of range"))
    | Except.ok ps, s :: srest =>
      let r := assemble_phase total (i + 1) rest srest
      (ev :: r.1, r.2.map (fun pr => (ps ++ pr.1, (f.name, s - 1) :: pr.2)))

/-- A TOC page added to the writer: rendered canvas content at the TOC page
size; a freshly rendered reportlab page is a well-formed target for
`merge_page`. -/
def toc_page (g : TocGeometry) (ops : List DrawOp) : Page :=
  ⟨g.pageW, g.pageH, PageContent.rendered ops, [], true⟩

/-- The result dictionary returned by `merge_pdfs_with_toc`, plus the final
output pages (path plumbing fields are omitted). -/
structure MergeResult where
  headerText : String
  files : List String
  pageCounts : List ℕ
  tocPages : ℕ
  starts : List ℕ
  bookmarks : List (String × ℕ)
  totalPages : ℕ
  pages : List Page
deriving DecidableEq

/-- Source: `merge_pdfs_with_toc(folder, output_path, header_text, ...)`:
list the folder, fail on an empty listing, count pages, resolve pagination,
log the TOC plan, assemble TOC pages then source pages with bookmarks, stamp
every page, and write the output. Returns the event trace and the result. -/
def merge_pdfs_with_toc (dirEntries : List SrcFile) (headerText : String) :
    List Event × Except MergeError MergeResult :=
  let files := list_pdfs_in_folder dirEntries
  if files.isEmpty then ([], Except.error MergeError.noPdfFiles)
  else
    let c := count_phase files.length 1 files
    match c.2 with
    | Except.error err => (c.1, Except.error err)
    | Except.ok pageCounts =>
      let r := resolvePagination (files.map SrcFile.name) pageCounts
      let logEvents := Event.log ("TOC pages: " ++ toString r.tocPages)
        :: r.entries.map (fun e => Event.log ("  " ++ e.1 ++ " -> page " ++ toString e.2))
      let a := assemble_phase files.length 1 files r.starts
      match a.2 with
      | Except.error err => (c.1 ++ logEvents ++ a.1, Except.error err)
      | Except.ok pr =>
        let writerPages := r.tocRendered.map (toc_page defaultGeometry) ++ pr.1
        let stamped := stamp_header_footer_on_writer headerText writerPages
        (c.1 ++ logEvents ++ a.1
          ++ [Event.progress 1 1 "Stamping header/footer...", Event.writeOutput stamped],
         Except.ok ⟨headerText, files.map SrcFile.name, pageCounts, r.tocPages, r.starts,
                    pr.2, stamped.length, stamped⟩)

/-! ## Basic lemmas about the embedded definitions -/

/-- The TOC capacity is strictly positive for every geometry. -/
theorem linesPerPage_pos (g : TocGeometry) : 0 < linesPerPage g :=
  Nat.lt_of_lt_of_le Nat.zero_lt_one (le_max_left 1 _)

/-- The TOC page count reported by the layout, as a function of the entry
count alone. -/
theorem build_toc_pdf_pages (g : TocGeometry) (title : String)
    (entries : List (String × ℕ)) :
    (build_toc_pdf g title entries).2
      = max 1 ((entries.length + (linesPerPage g - 1)) / linesPerPage g) := rfl

/-- Rounding up by adding `c - 1` before dividing is the rational ceiling. -/
theorem add_pred_div_eq_ceil (n c : ℕ) (hc : 0 < c) :
    (n + (c - 1)) / c = ⌈(n : ℚ) / (c : ℚ)⌉₊ := by
  have hc' : (0 : ℚ) < (c : ℚ) := by exact_mod_cast hc
  apply le_antisymm
  · have h1 : (n : ℚ) / c ≤ (⌈(n : ℚ) / c⌉₊ : ℚ) := Nat.le_ceil _
    have h2 : n ≤ ⌈(n : ℚ) / c⌉₊ * c := by exact_mod_cast (div_le_iff₀ hc').1 h1
    have h3 : (n + (c - 1)) / c < ⌈(n : ℚ) / c⌉₊ + 1 := by
      rw [Nat.div_lt_iff_lt_mul hc, Nat.succ_mul]
      omega
    omega
  · apply Nat.ceil_le.2
    rw [div_le_iff₀ hc']
    have h5 := Nat.div_add_mod (n + (c - 1)) c
    have h6 : (n + (c - 1)) % c < c := Nat.mod_lt _ hc
    have h4 : n ≤ c * ((n + (c - 1)) / c) := by omega
    calc (n : ℚ) ≤ ((c * ((n + (c - 1)) / c) : ℕ) : ℚ) := by exact_mod_cast h4
      _ = (((n + (c - 1)) / c : ℕ) : ℚ) * (c : ℚ) := by push_cast; ring

/-- C3: for every entry list of length N, the TOC layout produces exactly
ceil(N / capacity) pages, with a minimum of 1 page even when N = 0. -/
theorem c3_toc_page_count (g : TocGeometry) (title : String)
    (entries : List (String × ℕ)) :
    (build_toc_pdf g title entries).2
        = max 1 ⌈(entries.length : ℚ) / (linesPerPage g : ℚ)⌉₊
      ∧ (build_toc_pdf g title ([] : List (String × ℕ))).2 = 1 := by
  constructor
  · rw [build_toc_pdf_pages, add_pred_div_eq_ceil entries.length _ (linesPerPage_pos g)]
  · rw [build_toc_pdf_pages]
    simp [Nat.div_eq_of_lt, linesPerPage_pos g]

/-- C4: the TOC capacity equals floor((usable height minus header block) /
line height) clamped to at least 1, it is strictly positive for every
geometry, the layout page count does not depend on entry content (only on
the count), and for the default geometry used by both resolver passes the
capacity is 45. -/
theorem c4_capacity_pure :
    (∀ g : TocGeometry, linesPerPage g
        = max 1 (Int.toNat (Int.fdiv (usableH g - headerSpace g) (lineH g))))
    ∧ (∀ g : TocGeometry, 0 < linesPerPage g)
    ∧ (∀ (g : TocGeometry) (t t2 : String) (es es2 : List (String × ℕ)),
        es.length = es2.length →
        (build_toc_pdf g t es).2 = (build_toc_pdf g t2 es2).2)
    ∧ linesPerPage defaultGeometry = 45 := by
  refine ⟨fun g => rfl, linesPerPage_pos, ?_, by decide⟩
  intro g t t2 es es2 h
  rw [build_toc_pdf_pages, build_toc_pdf_pages, h]

/-- Witness for C4 at concrete inputs: two entry lists of equal length give
the same page count. -/
theorem c4_capacity_pure_witness :
    ([("a", 3)] : List (String × ℕ)).length = ([("bb", 7)] : List (String × ℕ)).length
    ∧ (build_toc_pdf defaultGeometry "T" [("a", 3)]).2
        = (build_toc_pdf defaultGeometry "U" [("bb", 7)]).2 :=
  ⟨by decide, c4_capacity_pure.2.2.1 defaultGeometry "T" "U" [("a", 3)] [("bb", 7)] (by decide)⟩

/-- C5: for a fixed geometry the TOC layout is a pure function of the entry
sequence (equal inputs give identical rendered pages and page count), and
the pagination resolver is deterministic on identical inputs. -/
theorem c5_layout_deterministic :
    (∀ (g : TocGeometry) (t : String) (es es2 : List (String × ℕ)), es = es2 →
      build_toc_pdf g t es = build_toc_pdf g t es2)
    ∧ (∀ (names names2 : List String) (counts counts2 : List ℕ),
        names = names2 → counts = counts2 →
        resolvePagination names counts = resolvePagination names2 counts2) :=
  ⟨fun _ _ _ _ h => by rw [h], fun _ _ _ _ h1 h2 => by rw [h1, h2]⟩

/-- Witness for C5 at concrete inputs. -/
theorem c5_layout_deterministic_witness :
    build_toc_pdf defaultGeometry tocTitle [("a.pdf", 2)]
        = build_toc_pdf defaultGeometry tocTitle [("a.pdf", 2)]
    ∧ resolvePagination ["a.pdf"] [2] = resolvePagination ["a.pdf"] [2] :=
  ⟨c5_layout_deterministic.1 defaultGeometry tocTitle [("a.pdf", 2)] [("a.pdf", 2)] rfl,
   c5_layout_deterministic.2 ["a.pdf"] ["a.pdf"] [2] [2] rfl rfl⟩

/-! ## Start page computation -/

/-- The start page loop yields one start page per page count. -/
theorem computeStartsFrom_length : ∀ (l : List ℕ) (c : ℕ),
    (computeStartsFrom c l).length = l.length
  | [], _ => rfl
  | _ :: rest, c => by
    simp [computeStartsFrom, computeStartsFrom_length rest]

/-- Closed form of the start page loop: the i-th start page is the running
base plus the sum of the first i page counts. -/
theorem computeStartsFrom_get? : ∀ (l : List ℕ) (c i : ℕ), i < l.length →
    (computeStartsFrom c l).get? i = some (c + (l.take i).sum)
  | [], _, i, h => absurd h (by simp)
  | n :: rest, c, 0, _ => by simp [computeStartsFrom]
  | n :: rest, c, i + 1, h => by
    have ih := computeStartsFrom_get? rest (c + n) i (by simpa using h)
    show (computeStartsFrom (c + n) rest).get? i = _
    rw [ih]
    congr 1
    simp only [List.take_succ_cons, List.sum_cons]
    omega

/-- Every start page produced from base c is at least c. -/
theorem computeStartsFrom_le : ∀ (l : List ℕ) (c : ℕ),
    ∀ x ∈ computeStartsFrom c l, c ≤ x
  | [], _ => by simp [computeStartsFrom]
  | n :: rest, c => by
    intro x hx
    simp only [computeStartsFrom, List.mem_cons] at hx
    rcases hx with rfl | hx
    · exact le_rfl
    · exact le_trans (Nat.le_add_right c n) (computeStartsFrom_le rest (c + n) x hx)

/-- With strictly positive page counts the start pages strictly increase. -/
theorem computeStartsFrom_pairwise : ∀ (l : List ℕ) (c : ℕ),
    (∀ n ∈ l, 0 < n) → List.Pairwise (fun a b => a < b) (computeStartsFrom c l)
  | [], _, _ => List.Pairwise.nil
  | n :: rest, c, hpos => by
    simp only [computeStartsFrom, List.pairwise_cons]
    refine ⟨fun x hx => ?_, computeStartsFrom_pairwise rest (c + n)
      (fun m hm => hpos m (List.mem_cons_of_mem n hm))⟩
    have h1 : c + n ≤ x := computeStartsFrom_le rest (c + n) x hx
    have h2 : 0 < n := hpos n (List.mem_cons_self n rest)
    omega

/-- The length of the zipped entry list used by each verification pass. -/
theorem zip_starts_length (names : List String) (counts : List ℕ) (t : ℕ) :
    (names.zip (computeStarts t counts)).length = min names.length counts.length := by
  simp [computeStarts, computeStartsFrom_length]

/-- In both branches of the resolver, the returned start pages are exactly
the ones computed from the returned TOC page count. -/
theorem resolve_starts_spec (names : List String) (counts : List ℕ) :
    (resolvePagination names counts).starts
      = computeStarts (resolvePagination names counts).tocPages counts := by
  simp only [resolvePagination]
  split
  · dsimp only
    simp only [build_toc_pdf_pages, zip_starts_length]
  · next h =>
    rw [not_not] at h
    dsimp only
    rw [h]

/-- C1 (amended): for a non-empty list of page counts that are all positive,
the resolved start pages satisfy: the first start page is the final TOC page
count plus one, the i-th start page is the TOC page count plus one plus the
sum of the first i page counts, consecutive start pages differ by the
preceding page count, and the sequence is strictly increasing. The
positivity hypothesis is forced by the counterexample below: the source
accepts zero-page source documents, for which the sequence is only
non-decreasing. -/
theorem c1_start_pages (names : List String) (counts : List ℕ)
    (hne : counts ≠ []) (hpos : ∀ c ∈ counts, 0 < c) :
    (resolvePagination names counts).starts.head?
        = some ((resolvePagination names counts).tocPages + 1)
    ∧ (∀ i, i < counts.length →
        (resolvePagination names counts).starts.get? i
          = some ((resolvePagination names counts).tocPages + 1 + (counts.take i).sum))
    ∧ (∀ i s c, (resolvePagination names counts).starts.get? i = some s →
        counts.get? i = some c → i + 1 < counts.length →
        (resolvePagination names counts).starts.get? (i + 1) = some (s + c))
    ∧ List.Pairwise (fun a b => a < b) (resolvePagination names counts).starts := by
  have hs := resolve_starts_spec names counts
  refine ⟨?_, ?_, ?_, ?_⟩
  · rw [hs]
    cases counts with
    | nil => exact absurd rfl hne
    | cons n rest => rfl
  · intro i hi
    rw [hs]
    exact computeStartsFrom_get? counts _ i hi
  · intro i s c h1 h2 h3
    rw [hs] at h1 ⊢
    have hi : i < counts.length := Nat.lt_of_succ_lt h3
    have e1 := computeStartsFrom_get? counts ((resolvePagination names counts).tocPages + 1) i hi
    have e2 := computeStartsFrom_get? counts ((resolvePagination names counts).tocPages + 1)
      (i + 1) h3
    rw [computeStarts] at h1 ⊢
    rw [e1] at h1
    rw [e2]
    have hs1 : (resolvePagination names counts).tocPages + 1 + (counts.take i).sum = s :=
      Option.some.inj h1
    have hg : counts[i] = c := by
      have h2g : counts[i]? = some c := by rw [← List.get?_eq_getElem?]; exact h2
      obtain ⟨hlt2, hgg⟩ := List.getElem?_eq_some.1 h2g
      exact hgg
    have hsum := List.sum_take_succ counts i hi
    rw [hsum, hg]
    simp only [Option.some.injEq]
    omega
  · rw [hs]
    exact computeStartsFrom_pairwise counts _ hpos

/-- Witness for C1 (amended) at the concrete input of spec Scenario A:
three documents of 2, 1 and 5 pages. -/
theorem c1_start_pages_witness :
    (([2, 1, 5] : List ℕ) ≠ [] ∧ ∀ c ∈ ([2, 1, 5] : List ℕ), 0 < c)
    ∧ ((resolvePagination ["a", "b", "c"] [2, 1, 5]).starts.head?
        = some ((resolvePagination ["a", "b", "c"] [2, 1, 5]).tocPages + 1)
    ∧ (∀ i, i < ([2, 1, 5] : List ℕ).length →
        (resolvePagination ["a", "b", "c"] [2, 1, 5]).starts.get? i
          = some ((resolvePagination ["a", "b", "c"] [2, 1, 5]).tocPages + 1
              + (([2, 1, 5] : List ℕ).take i).sum))
    ∧ (∀ i s c, (resolvePagination ["a", "b", "c"] [2, 1, 5]).starts.get? i = some s →
        ([2, 1, 5] : List ℕ).get? i = some c → i + 1 < ([2, 1, 5] : List ℕ).length →
        (resolvePagination ["a", "b", "c"] [2, 1, 5]).starts.get? (i + 1) = some (s + c))
    ∧ List.Pairwise (fun a b => a < b)
        (resolvePagination ["a", "b", "c"] [2, 1, 5]).starts) :=
  ⟨⟨by decide, by decide⟩, c1_start_pages ["a", "b", "c"] [2, 1, 5] (by decide) (by decide)⟩

/-- C1 counterexample: with a zero-page first document the resolved start
page sequence is [2, 2], which is not strictly increasing, refuting the
claim as stated for arbitrary (filename, page count) lists. -/
theorem c1_counterexample :
    (resolvePagination ["a", "b"] [0, 1]).starts = [2, 2]
    ∧ ¬ List.Pairwise (fun a b => a < b) (resolvePagination ["a", "b"] [0, 1]).starts :=
  ⟨by decide, by decide⟩

/-- The resolver output in closed form: writing t0 for the placeholder pass
page count and tC for the page count of the verification pass, the resolver
always returns the entries and start pages computed from tC together with
the page count tC and its rendering. -/
theorem resolve_canonical (names : List String) (counts : List ℕ) (t0 tC : ℕ)
    (h0 : (build_toc_pdf defaultGeometry tocTitle (names.map (fun f => (f, 1)))).2 = t0)
    (hC : (build_toc_pdf defaultGeometry tocTitle (names.zip (computeStarts t0 counts))).2 = tC) :
    resolvePagination names counts
      = ⟨(build_toc_pdf defaultGeometry tocTitle (names.zip (computeStarts tC counts))).1,
         names.zip (computeStarts tC counts), computeStarts tC counts, tC⟩ := by
  subst hC
  subst h0
  simp only [resolvePagination]
  by_cases h :
      (build_toc_pdf defaultGeometry tocTitle
        (names.zip (computeStarts
          (build_toc_pdf defaultGeometry tocTitle (names.map (fun f => (f, 1)))).2 counts))).2
      = (build_toc_pdf defaultGeometry tocTitle (names.map (fun f => (f, 1)))).2
  · rw [if_neg (not_not_intro h)]
    rw [h]
  · rw [if_pos h]
    congr 1
    rw [build_toc_pdf_pages, build_toc_pdf_pages, zip_starts_length, zip_starts_length]

/-- The spec-worded bounded fixed point loop, evaluated: it stops inside its
bound with the same canonical result, never reaching the
`PaginationDidNotConverge` case, because the layout page count depends only
on the entry count. -/
theorem specLoop_canonical (names : List String) (counts : List ℕ) (t0 tC : ℕ)
    (h0 : (build_toc_pdf defaultGeometry tocTitle (names.map (fun f => (f, 1)))).2 = t0)
    (hC : (build_toc_pdf defaultGeometry tocTitle (names.zip (computeStarts t0 counts))).2 = tC) :
    resolveSpecLoop names counts
      = Except.ok (names.zip (computeStarts tC counts), computeStarts tC counts, tC) := by
  subst hC
  subst h0
  have step1 : resolveSpecLoop names counts
      = (if (build_toc_pdf defaultGeometry tocTitle
            (names.zip (computeStarts
              (build_toc_pdf defaultGeometry tocTitle (names.map (fun f => (f, 1)))).2
              counts))).2
          = (build_toc_pdf defaultGeometry tocTitle (names.map (fun f => (f, 1)))).2
        then Except.ok
          (names.zip (computeStarts
              (build_toc_pdf defaultGeometry tocTitle (names.map (fun f => (f, 1)))).2 counts),
            computeStarts
              (build_toc_pdf defaultGeometry tocTitle (names.map (fun f => (f, 1)))).2 counts,
            (build_toc_pdf defaultGeometry tocTitle (names.map (fun f => (f, 1)))).2)
        else specLoopSteps names counts 4
          (build_toc_pdf defaultGeometry tocTitle
            (names.zip (computeStarts
              (build_toc_pdf defaultGeometry tocTitle (names.map (fun f => (f, 1)))).2
              counts))).2) := rfl
  rw [step1]
  by_cases h :
      (build_toc_pdf defaultGeometry tocTitle
        (names.zip (computeStarts
          (build_toc_pdf defaultGeometry tocTitle (names.map (fun f => (f, 1)))).2 counts))).2
      = (build_toc_pdf defaultGeometry tocTitle (names.map (fun f => (f, 1)))).2
  · rw [if_pos h, h]
  · rw [if_neg h]
    have step2 : ∀ t : ℕ, specLoopSteps names counts 4 t
        = (if (build_toc_pdf defaultGeometry tocTitle (names.zip (computeStarts t counts))).2 = t
          then Except.ok (names.zip (computeStarts t counts), computeStarts t counts, t)
          else specLoopSteps names counts 3
            (build_toc_pdf defaultGeometry tocTitle (names.zip (computeStarts t counts))).2) :=
      fun _ => rfl
    rw [step2, if_pos (by
      rw [build_toc_pdf_pages, build_toc_pdf_pages, zip_starts_length, zip_starts_length])]

/-- C2: the resolver of `merge_pdfs_with_toc` coincides, on every input,
with the bounded (5 iteration) fixed point loop described by the spec: the
loop stabilizes within the bound and returns exactly the entries, start
pages and TOC page count that the source resolver produces. In particular
the `PaginationDidNotConverge` outcome never occurs, because the layout
page count depends only on the entry count, which is fixed across
iterations. -/
theorem c2_resolver_is_bounded_fixed_point (names : List String) (counts : List ℕ) :
    resolveSpecLoop names counts
      = Except.ok ((resolvePagination names counts).entries,
          (resolvePagination names counts).starts,
          (resolvePagination names counts).tocPages) := by
  rw [specLoop_canonical names counts _ _ rfl rfl, resolve_canonical names counts _ _ rfl rfl]

/-! ## Stamping -/

/-- Stamping preserves the number of pages. -/
theorem stamp_from_length : ∀ (l : List Page) (h : String) (t k : ℕ),
    (stamp_from h t k l).length = l.length
  | [], _, _, _ => rfl
  | _ :: rest, h, t, k => by
    simp [stamp_from, stamp_from_length rest h t (k + 1)]

/-- The stamped page at position i is the original page stamped at running
index k + i. -/
theorem stamp_from_get? : ∀ (l : List Page) (h : String) (t k i : ℕ),
    (stamp_from h t k l).get? i = (l.get? i).map (stamp_one h t (k + i))
  | [], _, _, _, _ => by simp [stamp_from]
  | p :: rest, h, t, k, 0 => by simp [stamp_from]
  | p :: rest, h, t, k, i + 1 => by
    show (stamp_from h t (k + 1) rest).get? i = _
    rw [stamp_from_get? rest h t (k + 1) i]
    have : k + 1 + i = k + (i + 1) := by omega
    rw [this]
    rfl

/-- The last drawing command of every overlay is the right-aligned footer
`Page {i} of {total}`. -/
theorem overlay_footer_last (w h : ℤ) (hdr : String) (i t : ℕ) :
    (overlay_header_footer w h hdr i t).getLast?
      = some (DrawOp.drawRightString (w - 36) 24
          ("Page " ++ toString i ++ " of " ++ toString t)) := by
  unfold overlay_header_footer
  split <;> rfl

/-- C6: whenever the overlay merge succeeds on the page at 0-based position
i of the assembled document, the stamping pass appends to that page exactly
one overlay, sized to the page, whose last drawing command is the footer
`Page {i+1} of {total}` with total the length of the assembled document;
the pass preserves the page count. -/
theorem c6_footer_text (header : String) (pages : List Page) (i : ℕ) (p : Page)
    (hp : pages.get? i = some p) (hok : p.mergeOk = true) :
    (stamp_header_footer_on_writer header pages).length = pages.length
    ∧ (stamp_header_footer_on_writer header pages).get? i
        = some { p with overlays := p.overlays
            ++ [overlay_header_footer p.width p.height header (i + 1) pages.length] }
    ∧ (overlay_header_footer p.width p.height header (i + 1) pages.length).getLast?
        = some (DrawOp.drawRightString (p.width - 36) 24
            ("Page " ++ toString (i + 1) ++ " of " ++ toString pages.length)) := by
  refine ⟨stamp_from_length pages header pages.length 0, ?_,
    overlay_footer_last p.width p.height header (i + 1) pages.length⟩
  rw [stamp_header_footer_on_writer, stamp_from_get? pages header pages.length 0 i, hp]
  simp [stamp_one, hok]

/-- Witness for C6 at a concrete one-page document. -/
theorem c6_footer_text_witness :
    (([⟨612, 792, PageContent.rendered [], [], true⟩] : List Page).get? 0
        = some ⟨612, 792, PageContent.rendered [], [], true⟩
      ∧ (⟨612, 792, PageContent.rendered [], [], true⟩ : Page).mergeOk = true)
    ∧ ((stamp_header_footer_on_writer "HDR" [⟨612, 792, PageContent.rendered [], [], true⟩]).length
        = ([⟨612, 792, PageContent.rendered [], [], true⟩] : List Page).length
    ∧ (stamp_header_footer_on_writer "HDR" [⟨612, 792, PageContent.rendered [], [], true⟩]).get? 0
        = some { (⟨612, 792, PageContent.rendered [], [], true⟩ : Page) with
            overlays := (⟨612, 792, PageContent.rendered [], [], true⟩ : Page).overlays
              ++ [overlay_header_footer (612 : ℤ) (792 : ℤ) "HDR" (0 + 1)
                  ([⟨612, 792, PageContent.rendered [], [], true⟩] : List Page).length] }
    ∧ (overlay_header_footer (612 : ℤ) (792 : ℤ) "HDR" (0 + 1)
          ([⟨612, 792, PageContent.rendered [], [], true⟩] : List Page).length).getLast?
        = some (DrawOp.drawRightString ((612 : ℤ) - 36) 24
            ("Page " ++ toString (0 + 1) ++ " of "
              ++ toString ([⟨612, 792, PageContent.rendered [], [], true⟩] : List Page).length))) :=
  ⟨⟨by decide, by decide⟩,
    c6_footer_text "HDR" [⟨612, 792, PageContent.rendered [], [], true⟩] 0
      ⟨612, 792, PageContent.rendered [], [], true⟩ (by decide) (by decide)⟩

/-- C7 (amended): when the overlay merge fails on the page at position i
(for example a degenerate page), that page alone is left unchanged, every
other page whose merge succeeds is still stamped, the page count is
preserved and the pass (hence the run) continues; however the source
records no warning anywhere: the failure is swallowed silently, as the
counterexample below shows. -/
theorem c7_degenerate_skip (header : String) (pages : List Page) (i : ℕ) (p : Page)
    (hp : pages.get? i = some p) (hbad : p.mergeOk = false) :
    (stamp_header_footer_on_writer header pages).length = pages.length
    ∧ (stamp_header_footer_on_writer header pages).get? i = some p
    ∧ (∀ j q, pages.get? j = some q → q.mergeOk = true →
        (stamp_header_footer_on_writer header pages).get? j
          = some { q with overlays := q.overlays
              ++ [overlay_header_footer q.width q.height header (j + 1) pages.length] }) := by
  refine ⟨stamp_from_length pages header pages.length 0, ?_, ?_⟩
  · rw [stamp_header_footer_on_writer, stamp_from_get? pages header pages.length 0 i, hp]
    simp [stamp_one, hbad]
  · intro j q hq hqok
    rw [stamp_header_footer_on_writer, stamp_from_get? pages header pages.length 0 j, hq]
    simp [stamp_one, hqok]

/-- Witness for C7 (amended): a two-page document whose second page has a
failing merge; the first page is stamped, the second is left unchanged. -/
theorem c7_degenerate_skip_witness :
    (([⟨612, 792, PageContent.rendered [], [], true⟩,
        ⟨0, 792, PageContent.fromSource "a.pdf" 0, [], false⟩] : List Page).get? 1
        = some ⟨0, 792, PageContent.fromSource "a.pdf" 0, [], false⟩
      ∧ (⟨0, 792, PageContent.fromSource "a.pdf" 0, [], false⟩ : Page).mergeOk = false)
    ∧ ((stamp_header_footer_on_writer "H"
          [⟨612, 792, PageContent.rendered [], [], true⟩,
           ⟨0, 792, PageContent.fromSource "a.pdf" 0, [], false⟩]).length
        = ([⟨612, 792, PageContent.rendered [], [], true⟩,
            ⟨0, 792, PageContent.fromSource "a.pdf" 0, [], false⟩] : List Page).length
    ∧ (stamp_header_footer_on_writer "H"
          [⟨612, 792, PageContent.rendered [], [], true⟩,
           ⟨0, 792, PageContent.fromSource "a.pdf" 0, [], false⟩]).get? 1
        = some ⟨0, 792, PageContent.fromSource "a.pdf" 0, [], false⟩
    ∧ (∀ j q,
        ([⟨612, 792, PageContent.rendered [], [], true⟩,
          ⟨0, 792, PageContent.fromSource "a.pdf" 0, [], false⟩] : List Page).get? j = some q →
        q.mergeOk = true →
        (stamp_header_footer_on_writer "H"
            [⟨612, 792, PageContent.rendered [], [], true⟩,
             ⟨0, 792, PageContent.fromSource "a.pdf" 0, [], false⟩]).get? j
          = some { q with overlays := q.overlays
              ++ [overlay_header_footer q.width q.height "H" (j + 1)
                  ([⟨612, 792, PageContent.rendered [], [], true⟩,
                    ⟨0, 792, PageContent.fromSource "a.pdf" 0, [], false⟩] : List Page).length] })) :=
  ⟨⟨by decide, by decide⟩,
    c7_degenerate_skip "H"
      [⟨612, 792, PageContent.rendered [], [], true⟩,
       ⟨0, 792, PageContent.fromSource "a.pdf" 0, [], false⟩] 1
      ⟨0, 792, PageContent.fromSource "a.pdf" 0, [], false⟩ (by decide) (by decide)⟩

/-- C7 counterexample: no warning is recorded for a skipped page. Two runs
on a one-page source document, identical except that in the first the page
has degenerate geometry (zero width) and a failing overlay merge: the
observable traces (progress and log events) are identical, the degenerate
run still succeeds and still writes its output, and its written page is
left unstamped. Were a warning recorded, the traces would differ. -/
theorem c7_counterexample :
    ((merge_pdfs_with_toc [⟨"a.pdf",
          Except.ok [⟨0, 792, PageContent.fromSource "a.pdf" 0, [], false⟩]⟩] "HDR").1.filter
        (fun e => ! e.isWrite)
      = (merge_pdfs_with_toc [⟨"a.pdf",
          Except.ok [⟨612, 792, PageContent.fromSource "a.pdf" 0, [], true⟩]⟩] "HDR").1.filter
        (fun e => ! e.isWrite))
    ∧ (merge_pdfs_with_toc [⟨"a.pdf",
        Except.ok [⟨0, 792, PageContent.fromSource "a.pdf" 0, [], false⟩]⟩] "HDR").1.any
          Event.isWrite = true
    ∧ (merge_pdfs_with_toc [⟨"a.pdf",
        Except.ok [⟨0, 792, PageContent.fromSource "a.pdf" 0, [], false⟩]⟩] "HDR").2.isOk = true
    ∧ ((merge_pdfs_with_toc [⟨"a.pdf",
        Except.ok [⟨0, 792, PageContent.fromSource "a.pdf" 0, [], false⟩]⟩] "HDR").2.toOption.map
          (fun res => res.pages.get? 1))
        = some (some ⟨0, 792, PageContent.fromSource "a.pdf" 0, [], false⟩) :=
  ⟨by decide, by decide, by decide, by decide⟩

/-! ## Merge orchestrator -/

/-- A read outcome with a true success flag is a success. -/
theorem except_isOk_ok {ε α : Type} {x : Except ε α} (h : x.isOk = true) :
    ∃ a, x = Except.ok a := by
  cases x with
  | error e => simp [Except.isOk, Except.toBool] at h
  | ok a => exact ⟨a, rfl⟩

/-- A read outcome with a false success flag is an error. -/
theorem except_isOk_error {ε α : Type} {x : Except ε α} (h : x.isOk = false) :
    ∃ e, x = Except.error e := by
  cases x with
  | error e => exact ⟨e, rfl⟩
  | ok a => simp [Except.isOk, Except.toBool] at h

/-- A non-empty list is not isEmpty. -/
theorem isEmpty_false_of_ne_nil {α : Type} {l : List α} (h : l ≠ []) :
    l.isEmpty = false := by
  cases l with
  | nil => exact absurd rfl h
  | cons a t => rfl

/-- If any file in the counting loop fails to read, the loop stops with the
`RuntimeError` naming that file, and its events are progress reports only. -/
theorem count_phase_error : ∀ (l : List SrcFile) (total i : ℕ),
    (∃ f ∈ l, f.read.isOk = false) →
    ∃ f e, f ∈ l ∧ f.read = Except.error e
      ∧ (count_phase total i l).2 = Except.error (MergeError.failedToRead f.name e)
      ∧ ∀ ev ∈ (count_phase total i l).1, ev.isWrite = false
  | [], _, _, hbad => by simp at hbad
  | f :: rest, total, i, hbad => by
    cases hr : f.read with
    | error e =>
      refine ⟨f, e, List.mem_cons_self f rest, hr, ?_, ?_⟩
      · simp [count_phase, count_pages_of, hr, Except.map]
      · intro ev hev
        simp [count_phase, count_pages_of, hr, Except.map] at hev
        subst hev
        rfl
    | ok ps =>
      have hbad' : ∃ f2 ∈ rest, f2.read.isOk = false := by
        obtain ⟨f2, hf2, hb⟩ := hbad
        rcases List.mem_cons.1 hf2 with rfl | h2
        · rw [hr] at hb
          simp [Except.isOk, Except.toBool] at hb
        · exact ⟨f2, h2, hb⟩
      obtain ⟨f2, e, hf2, he, hres, hev⟩ := count_phase_error rest total (i + 1) hbad'
      refine ⟨f2, e, List.mem_cons_of_mem f hf2, he, ?_, ?_⟩
      · simp [count_phase, count_pages_of, hr, hres, Except.map]
      · intro ev hev2
        have hev3 : ev = Event.progress i total ("Counting pages: " ++ f.name)
            ∨ ev ∈ (count_phase total (i + 1) rest).1 := by
          simpa [count_phase, count_pages_of, hr, Except.map] using hev2
        rcases hev3 with rfl | h
        · rfl
        · exact hev ev h

/-- C8: if any listed source PDF fails to read during page counting, the
whole merge fails with the `RuntimeError` whose message names the offending
file (the file name occurs verbatim in the message), and no output write
event is emitted: no output, not even partial, is produced. -/
theorem c8_corrupt_source (dirEntries : List SrcFile) (header : String)
    (hbad : ∃ f ∈ list_pdfs_in_folder dirEntries, f.read.isOk = false) :
    ∃ f e, f ∈ list_pdfs_in_folder dirEntries ∧ f.read = Except.error e
      ∧ (merge_pdfs_with_toc dirEntries header).2
          = Except.error (MergeError.failedToRead f.name e)
      ∧ errMessage (MergeError.failedToRead f.name e)
          = "Failed to read PDF: " ++ f.name ++ "\n" ++ e
      ∧ (∃ pre post, errMessage (MergeError.failedToRead f.name e) = pre ++ f.name ++ post)
      ∧ ∀ ev ∈ (merge_pdfs_with_toc dirEntries header).1, ev.isWrite = false := by
  obtain ⟨f, e, hf, he, hres, hev⟩ := count_phase_error (list_pdfs_in_folder dirEntries)
    (list_pdfs_in_folder dirEntries).length 1 hbad
  have hempty : (list_pdfs_in_folder dirEntries).isEmpty = false :=
    isEmpty_false_of_ne_nil (List.ne_nil_of_mem hf)
  have hmerge : merge_pdfs_with_toc dirEntries header
      = ((count_phase (list_pdfs_in_folder dirEntries).length 1
            (list_pdfs_in_folder dirEntries)).1,
         Except.error (MergeError.failedToRead f.name e)) := by
    simp only [merge_pdfs_with_toc, hempty, Bool.false_eq_true, if_false, hres]
  refine ⟨f, e, hf, he, by rw [hmerge], rfl,
    ⟨"Failed to read PDF: ", "\n" ++ e, ?_⟩, ?_⟩
  · show ("Failed to read PDF: " ++ f.name ++ "\n" ++ e : String) = _
    rw [String.append_assoc]
  · intro ev hev2
    rw [hmerge] at hev2
    exact hev ev hev2

/-- Witness for C8: a folder whose single PDF is unreadable. -/
theorem c8_corrupt_source_witness :
    (∃ f ∈ list_pdfs_in_folder [⟨"bad.pdf", Except.error "broken file"⟩],
      f.read.isOk = false)
    ∧ (∃ f e, f ∈ list_pdfs_in_folder [⟨"bad.pdf", Except.error "broken file"⟩]
        ∧ f.read = Except.error e
        ∧ (merge_pdfs_with_toc [⟨"bad.pdf", Except.error "broken file"⟩] "H").2
            = Except.error (MergeError.failedToRead f.name e)
        ∧ errMessage (MergeError.failedToRead f.name e)
            = "Failed to read PDF: " ++ f.name ++ "\n" ++ e
        ∧ (∃ pre post, errMessage (MergeError.failedToRead f.name e) = pre ++ f.name ++ post)
        ∧ ∀ ev ∈ (merge_pdfs_with_toc [⟨"bad.pdf", Except.error "broken file"⟩] "H").1,
            ev.isWrite = false) :=
  ⟨by decide, c8_corrupt_source [⟨"bad.pdf", Except.error "broken file"⟩] "H" (by decide)⟩

/-- C9: if the folder listing contains no PDF file, the merge fails
immediately with the `ValueError` for an empty folder, before emitting any
event: in particular no output write happens. -/
theorem c9_empty_input (dirEntries : List SrcFile) (header : String)
    (hempty : list_pdfs_in_folder dirEntries = []) :
    merge_pdfs_with_toc dirEntries header = ([], Except.error MergeError.noPdfFiles)
    ∧ errMessage MergeError.noPdfFiles = "No PDF files found in the selected folder."
    ∧ ∀ ev ∈ (merge_pdfs_with_toc dirEntries header).1, ev.isWrite = false := by
  have h1 : merge_pdfs_with_toc dirEntries header
      = ([], Except.error MergeError.noPdfFiles) := by
    simp only [merge_pdfs_with_toc, hempty]
    rfl
  refine ⟨h1, rfl, ?_⟩
  intro ev hev
  rw [h1] at hev
  exact absurd hev (List.not_mem_nil ev)

/-- Witness for C9: a folder containing only a non-PDF file. -/
theorem c9_empty_input_witness :
    (list_pdfs_in_folder [⟨"x.txt", Except.ok []⟩] = [])
    ∧ (merge_pdfs_with_toc [⟨"x.txt", Except.ok []⟩] "H"
          = ([], Except.error MergeError.noPdfFiles)
       ∧ errMessage MergeError.noPdfFiles = "No PDF files found in the selected folder."
       ∧ ∀ ev ∈ (merge_pdfs_with_toc [⟨"x.txt", Except.ok []⟩] "H").1, ev.isWrite = false) :=
  ⟨by decide, c9_empty_input [⟨"x.txt", Except.ok []⟩] "H" (by decide)⟩

/-- With all reads succeeding, the counting loop returns one page count per
file. -/
theorem count_phase_ok : ∀ (l : List SrcFile) (total i : ℕ),
    (∀ f ∈ l, f.read.isOk = true) →
    ∃ counts : List ℕ, (count_phase total i l).2 = Except.ok counts
      ∧ counts.length = l.length
  | [], _, _, _ => ⟨[], rfl, rfl⟩
  | f :: rest, total, i, hok => by
    obtain ⟨ps, hps⟩ := except_isOk_ok (hok f (List.mem_cons_self f rest))
    obtain ⟨counts, hc, hlen⟩ := count_phase_ok rest total (i + 1)
      (fun g hg => hok g (List.mem_cons_of_mem f hg))
    refine ⟨ps.length :: counts, ?_, by simp [hlen]⟩
    simp [count_phase, count_pages_of, hps, hc, Except.map]

/-- With all reads succeeding and one start page per file, the assembly loop
succeeds. -/
theorem assemble_phase_ok : ∀ (l : List SrcFile) (total i : ℕ) (starts : List ℕ),
    (∀ f ∈ l, f.read.isOk = true) → starts.length = l.length →
    ∃ ps bms, (assemble_phase total i l starts).2 = Except.ok (ps, bms)
  | [], _, _, starts, _, _ => ⟨[], [], rfl⟩
  | f :: rest, total, i, starts, hok, hlen => by
    cases starts with
    | nil => simp at hlen
    | cons s srest =>
      obtain ⟨ps, hps⟩ := except_isOk_ok (hok f (List.mem_cons_self f rest))
      obtain ⟨ps2, bms, ha⟩ := assemble_phase_ok rest total (i + 1) srest
        (fun g hg => hok g (List.mem_cons_of_mem f hg)) (by simpa using hlen)
      exact ⟨ps ++ ps2, (f.name, s - 1) :: bms,
        by simp [assemble_phase, hps, ha, Except.map]⟩

/-- The resolver returns one start page per page count. -/
theorem resolve_starts_length (names : List String) (counts : List ℕ) :
    (resolvePagination names counts).starts.length = counts.length := by
  rw [resolve_starts_spec]
  simp [computeStarts, computeStartsFrom_length]

/-- The resolver renders exactly as many TOC pages as it reports. -/
theorem resolve_tocRendered_length (names : List String) (counts : List ℕ) :
    (resolvePagination names counts).tocRendered.length
      = (resolvePagination names counts).tocPages := by
  rw [resolve_canonical names counts _ _ rfl rfl]
  simp only [build_toc_pdf, List.length_map, List.length_range]
  rw [zip_starts_length, zip_starts_length]

/-- The resolver always reports at least one TOC page. -/
theorem resolve_tocPages_pos (names : List String) (counts : List ℕ) :
    0 < (resolvePagination names counts).tocPages := by
  rw [resolve_canonical names counts _ _ rfl rfl]
  exact Nat.lt_of_lt_of_le Nat.zero_lt_one (le_max_left 1 _)

/-- C10: on a successful run the output document is the stamping pass
applied to the whole assembled writer, which is the rendered TOC pages
followed by the source pages, with no exemption for the TOC pages; there is
at least one TOC page, the total page count is the TOC pages plus the
source pages, and the very first output page is TOC page 1 carrying the
overlay whose footer reads `Page 1 of {total}`. -/
theorem c10_toc_pages_stamped (dirEntries : List SrcFile) (header : String)
    (hne : list_pdfs_in_folder dirEntries ≠ [])
    (hok : ∀ f ∈ list_pdfs_in_folder dirEntries, f.read.isOk = true) :
    ∃ (res : MergeResult) (tocRendered : List (List DrawOp)) (srcPages : List Page),
      (merge_pdfs_with_toc dirEntries header).2 = Except.ok res
      ∧ res.pages = stamp_header_footer_on_writer header
          (tocRendered.map (toc_page defaultGeometry) ++ srcPages)
      ∧ 0 < tocRendered.length
      ∧ res.totalPages = tocRendered.length + srcPages.length
      ∧ (∃ ops, tocRendered.head? = some ops
          ∧ res.pages.head? = some
              { width := 612, height := 792, content := PageContent.rendered ops,
                overlays := [overlay_header_footer 612 792 header 1 res.totalPages],
                mergeOk := true })
      ∧ (overlay_header_footer 612 792 header 1 res.totalPages).getLast?
          = some (DrawOp.drawRightString ((612 : ℤ) - 36) 24
              ("Page " ++ toString 1 ++ " of " ++ toString res.totalPages)) := by
  have hempty : (list_pdfs_in_folder dirEntries).isEmpty = false :=
    isEmpty_false_of_ne_nil hne
  obtain ⟨counts, hc, hclen⟩ := count_phase_ok (list_pdfs_in_folder dirEntries)
    (list_pdfs_in_folder dirEntries).length 1 hok
  have hslen : (resolvePagination ((list_pdfs_in_folder dirEntries).map SrcFile.name)
      counts).starts.length = (list_pdfs_in_folder dirEntries).length := by
    rw [resolve_starts_length, hclen]
  obtain ⟨ps, bms, ha⟩ := assemble_phase_ok (list_pdfs_in_folder dirEntries)
    (list_pdfs_in_folder dirEntries).length 1
    (resolvePagination ((list_pdfs_in_folder dirEntries).map SrcFile.name) counts).starts
    hok hslen
  have hmerge : (merge_pdfs_with_toc dirEntries header).2 = Except.ok
      ⟨header, (list_pdfs_in_folder dirEntries).map SrcFile.name, counts,
       (resolvePagination ((list_pdfs_in_folder dirEntries).map SrcFile.name) counts).tocPages,
       (resolvePagination ((list_pdfs_in_folder dirEntries).map SrcFile.name) counts).starts,
       bms,
       (stamp_header_footer_on_writer header
         ((resolvePagination ((list_pdfs_in_folder dirEntries).map SrcFile.name)
             counts).tocRendered.map (toc_page defaultGeometry) ++ ps)).length,
       stamp_header_footer_on_writer header
         ((resolvePagination ((list_pdfs_in_folder dirEntries).map SrcFile.name)
             counts).tocRendered.map (toc_page defaultGeometry) ++ ps)⟩ := by
    simp only [merge_pdfs_with_toc, hempty, Bool.false_eq_true, if_false, hc, ha, Except.map]
  refine ⟨_, (resolvePagination ((list_pdfs_in_folder dirEntries).map SrcFile.name)
      counts).tocRendered, ps, hmerge, rfl, ?_, ?_, ?_, ?_⟩
  · rw [resolve_tocRendered_length]
    exact resolve_tocPages_pos _ _
  · show (stamp_header_footer_on_writer header _).length = _
    rw [stamp_header_footer_on_writer, stamp_from_length]
    simp
  · have hpos : 0 < (resolvePagination ((list_pdfs_in_folder dirEntries).map SrcFile.name)
        counts).tocRendered.length := by
      rw [resolve_tocRendered_length]
      exact resolve_tocPages_pos _ _
    obtain ⟨ops, rest2, hcons⟩ : ∃ ops rest2,
        (resolvePagination ((list_pdfs_in_folder dirEntries).map SrcFile.name)
          counts).tocRendered = ops :: rest2 := by
      cases htc : (resolvePagination ((list_pdfs_in_folder dirEntries).map SrcFile.name)
          counts).tocRendered with
      | nil => rw [htc] at hpos; simp at hpos
      | cons a t => exact ⟨a, t, rfl⟩
    refine ⟨ops, by rw [hcons]; rfl, ?_⟩
    have htot : (stamp_header_footer_on_writer header
        ((resolvePagination ((list_pdfs_in_folder dirEntries).map SrcFile.name)
            counts).tocRendered.map (toc_page defaultGeometry) ++ ps)).length
        = ((resolvePagination ((list_pdfs_in_folder dirEntries).map SrcFile.name)
            counts).tocRendered.map (toc_page defaultGeometry) ++ ps).length := by
      rw [stamp_header_footer_on_writer, stamp_from_length]
    show (stamp_header_footer_on_writer header _).head? = _
    rw [hcons]
    show some (stamp_one header _ 0 (toc_page defaultGeometry ops)) = _
    rw [show (stamp_header_footer_on_writer header
          (List.map (toc_page defaultGeometry) (ops :: rest2) ++ ps)).length
        = (List.map (toc_page defaultGeometry) (ops :: rest2) ++ ps).length from
      by rw [stamp_header_footer_on_writer, stamp_from_length]]
    simp [stamp_one, toc_page, defaultGeometry]
  · exact overlay_footer_last 612 792 header 1 _

/-- Witness for C10: a folder with one readable one-page PDF. -/
theorem c10_toc_pages_stamped_witness :
    (list_pdfs_in_folder
        [⟨"a.pdf", Except.ok [⟨612, 792, PageContent.fromSource "a.pdf" 0, [], true⟩]⟩] ≠ []
     ∧ ∀ f ∈ list_pdfs_in_folder
          [⟨"a.pdf", Except.ok [⟨612, 792, PageContent.fromSource "a.pdf" 0, [], true⟩]⟩],
        f.read.isOk = true)
    ∧ (∃ (res : MergeResult) (tocRendered : List (List DrawOp)) (srcPages : List Page),
      (merge_pdfs_with_toc
          [⟨"a.pdf", Except.ok [⟨612, 792, PageContent.fromSource "a.pdf" 0, [], true⟩]⟩]
          "H").2 = Except.ok res
      ∧ res.pages = stamp_header_footer_on_writer "H"
          (tocRendered.map (toc_page defaultGeometry) ++ srcPages)
      ∧ 0 < tocRendered.length
      ∧ res.totalPages = tocRendered.length + srcPages.length
      ∧ (∃ ops, tocRendered.head? = some ops
          ∧ res.pages.head? = some
              { width := 612, height := 792, content := PageContent.rendered ops,
                overlays := [overlay_header_footer 612 792 "H" 1 res.totalPages],
                mergeOk := true })
      ∧ (overlay_header_footer 612 792 "H" 1 res.totalPages).getLast?
          = some (DrawOp.drawRightString ((612 : ℤ) - 36) 24
              ("Page " ++ toString 1 ++ " of " ++ toString res.totalPages))) :=
  ⟨⟨by decide, by decide⟩,
    c10_toc_pages_stamped
      [⟨"a.pdf", Except.ok [⟨612, 792, PageContent.fromSource "a.pdf" 0, [], true⟩]⟩]
      "H" (by decide) (by decide)⟩
